import Mathlib

/-!
Verification of the gh-gitgen orchestration core (`src/gh_gitgen/_gitgen.py`)
against its natural-language specification.

The Python source is shallowly embedded: the streamed agent output of one
turn becomes a `List StreamItem`, the stream-aggregating coroutine `run`
becomes a left fold returning `Except` (a raised `ValueError` becomes
`Except.error`), the HTTP-dependent `get_github_issue_content` becomes a pure
function of the two responses (status plus decoded JSON payload), and the
`gitgen` driver (four fixed pipeline turns followed by the interactive
revision `while` loop) becomes a pure function of a deterministic agent
oracle and the list of human inputs, returning a trace of the prompts
issued, the clipboard effect and the final draft state.
-/

namespace Gitgen

/-- The `chat_message` carried by a `Response` yielded from
`agent.on_messages_stream`: a `TextMessage`, a `ToolCallSummaryMessage`, or
any other message type (carried here with a description string standing for
its Python repr). -/
inductive ChatMessage where
  | textMessage (content : String)
  | toolCallSummaryMessage (content : String)
  | otherMessage (desc : String)
deriving DecidableEq

/-- One item yielded by the async stream `agent.on_messages_stream(...)`:
either a final `Response` wrapping a chat message, or any other yielded
value (an inner agent event), which the source's
`isinstance(message, Response)` test skips. -/
inductive StreamItem where
  | response (chat_message : ChatMessage)
  | innerEvent (desc : String)
deriving DecidableEq

/-- The loop body of `run` in `_gitgen.py`, folding the stream into the
accumulator `last_txt_message` (initially `""`): a `Response` carrying a
`TextMessage` or `ToolCallSummaryMessage` appends its `content`; a
`Response` carrying any other message type raises
`ValueError(f"Unexpected message type: {message.chat_message}")`, modelled
as `Except.error`; non-`Response` items are skipped.  The `print` side
effect of the `log` flag does not affect the returned value and is not
modelled. -/
def runAux (acc : String) : List StreamItem → Except String String
  | [] => .ok acc
  | .response (.textMessage c) :: rest => runAux (acc ++ c) rest
  | .response (.toolCallSummaryMessage c) :: rest => runAux (acc ++ c) rest
  | .response (.otherMessage d) :: _ => .error ("Unexpected message type: " ++ d)
  | .innerEvent _ :: rest => runAux acc rest

/-- `run(agent, task)` from `_gitgen.py`, restricted to its pure core: the
reduction of the turn's event stream to the final `last_txt_message`,
starting from the empty accumulator. -/
def run (stream : List StreamItem) : Except String String :=
  runAux "" stream

/-- An item is a `Response` whose chat message is one of the two recognized
kinds (spec: PlainText / ToolResultSummary). -/
def isContentResponse : StreamItem → Bool
  | .response (.textMessage _) => true
  | .response (.toolCallSummaryMessage _) => true
  | _ => false

/-- An item is a `Response` whose chat message is of an unrecognized kind
(neither `TextMessage` nor `ToolCallSummaryMessage`). -/
def isUnknownResponse : StreamItem → Bool
  | .response (.otherMessage _) => true
  | _ => false

/-- The content fragment an item contributes to the aggregate, if any. -/
def fragment : StreamItem → Option String
  | .response (.textMessage c) => some c
  | .response (.toolCallSummaryMessage c) => some c
  | _ => none

/-- Concatenation, in arrival order, of the content fragments of a stream. -/
def concatFragments : List StreamItem → String
  | [] => ""
  | e :: rest => (fragment e).getD "" ++ concatFragments rest

theorem runAux_concat (stream : List StreamItem)
    (h : ∀ e ∈ stream, isContentResponse e = true) :
    ∀ acc, runAux acc stream = .ok (acc ++ concatFragments stream) := by
  induction stream with
  | nil => intro acc; simp [runAux, concatFragments]
  | cons e rest ih =>
    intro acc
    have he : isContentResponse e = true := h e (List.mem_cons_self e rest)
    have hrest : ∀ x ∈ rest, isContentResponse x = true :=
      fun x hx => h x (List.mem_cons_of_mem e hx)
    cases e with
    | response m =>
      cases m with
      | textMessage c =>
        simp only [runAux, concatFragments, fragment, Option.getD_some,
          ih hrest (acc ++ c), String.append_assoc]
      | toolCallSummaryMessage c =>
        simp only [runAux, concatFragments, fragment, Option.getD_some,
          ih hrest (acc ++ c), String.append_assoc]
      | otherMessage d => simp [isContentResponse] at he
    | innerEvent d => simp [isContentResponse] at he

theorem runAux_unknown_error (stream : List StreamItem)
    (h : ∃ e ∈ stream, isUnknownResponse e = true) :
    ∀ acc, ∃ msg, runAux acc stream = .error msg := by
  induction stream with
  | nil => simp at h
  | cons e rest ih =>
    intro acc
    obtain ⟨x, hx, hux⟩ := h
    cases e with
    | response m =>
      cases m with
      | textMessage c =>
        rcases List.mem_cons.mp hx with heq | hmem
        · rw [heq] at hux; simp [isUnknownResponse] at hux
        · exact ih ⟨x, hmem, hux⟩ (acc ++ c)
      | toolCallSummaryMessage c =>
        rcases List.mem_cons.mp hx with heq | hmem
        · rw [heq] at hux; simp [isUnknownResponse] at hux
        · exact ih ⟨x, hmem, hux⟩ (acc ++ c)
      | otherMessage d =>
        exact ⟨"Unexpected message type: " ++ d, rfl⟩
    | innerEvent d =>
      rcases List.mem_cons.mp hx with heq | hmem
      · rw [heq] at hux; simp [isUnknownResponse] at hux
      · exact ih ⟨x, hmem, hux⟩ acc

/-- Claim C1: for every event sequence consisting only of PlainText
(`TextMessage`) and ToolResultSummary (`ToolCallSummaryMessage`) events, the
stream aggregation `run` returns exactly the concatenation of the events'
content fragments in arrival order, starting from the empty accumulator. -/
theorem run_concatenates (stream : List StreamItem)
    (h : ∀ e ∈ stream, isContentResponse e = true) :
    run stream = .ok (concatFragments stream) := by
  have := runAux_concat stream h ""
  simpa [run] using this

/-- Witness for C1, the spec's own example:
`[PlainText("Hello "), ToolResultSummary("world")]` aggregates to
`"Hello world"`. -/
theorem run_concatenates_witness :
    run [.response (.textMessage "Hello "),
         .response (.toolCallSummaryMessage "world")] = .ok "Hello world" := by
  rw [run_concatenates _ (by decide)]
  exact congrArg Except.ok (by decide)

/-- Claim C2: for every event sequence containing at least one event of an
unrecognized tag (a `Response` whose chat message is neither `TextMessage`
nor `ToolCallSummaryMessage`), `run` fails (the `ValueError` raise, modelled
as `Except.error`) and returns no value: no partial result is produced. -/
theorem run_rejects_unknown (stream : List StreamItem)
    (h : ∃ e ∈ stream, isUnknownResponse e = true) :
    ∃ msg, run stream = .error msg :=
  runAux_unknown_error stream h ""

/-- Witness for C2: a stream with a recognized event followed by a
`StopMessage`-like response errors out. -/
theorem run_rejects_unknown_witness :
    ∃ msg,
      run [.response (.textMessage "partial "),
           .response (.otherMessage "StopMessage")] = .error msg :=
  run_rejects_unknown _ ⟨.response (.otherMessage "StopMessage"), by decide, rfl⟩

/-- The decoded `user` object of an issue or comment JSON payload: each
field is present (`some`) or absent (`none`), matching Python's
`dict.get(key, default)` access. -/
structure UserJson where
  login : Option String := none
  id : Option Nat := none
deriving DecidableEq

/-- The decoded issue-metadata JSON payload, restricted to the fields the
source reads. -/
structure IssueJson where
  body : Option String := none
  user : Option UserJson := none
deriving DecidableEq

/-- One decoded element of the comments-list JSON payload, restricted to
the fields the source reads. -/
structure CommentJson where
  user : Option UserJson := none
  body : Option String := none
deriving DecidableEq

/-- `comment.get('id', 'Unknown ID')` rendered by the f-string: a present
numeric id prints in decimal, an absent one as the default string. -/
def idRepr : Option Nat → String
  | some i => toString i
  | none => "Unknown ID"

/-- The comment line built inside the list comprehension of
`get_github_issue_content`:
`f"{comment.get('user', {}).get('login', 'Unknown user')} (ID: {...}): {comment.get('body', 'No content')}"`. -/
def formatComment (comment : CommentJson) : String :=
  (comment.user.getD {}).login.getD "Unknown user" ++ " (ID: " ++
    idRepr (comment.user.getD {}).id ++ "): " ++ comment.body.getD "No content"

/-- `get_github_issue_content` from `_gitgen.py` as a pure function of the
two HTTP responses it observes: the issue-metadata call (status plus decoded
JSON) and the comments call (status plus decoded JSON list).  The source
returns the issue error string before the comments call is consulted,
returns the comments error string next, and otherwise formats the composite
result. -/
def get_github_issue_content (issue_status : Nat) (issue : IssueJson)
    (comments_status : Nat) (comments : List CommentJson) : String :=
  if issue_status = 200 then
    let issue_content := issue.body.getD "No content"
    let issue_user := (issue.user.getD {}).login.getD "Unknown user"
    if comments_status = 200 then
      let comments_content := String.intercalate "\n\n" (comments.map formatComment)
      "Issue Content by " ++ issue_user ++ ":\n" ++ issue_content ++
        "\n\nComments:\n" ++ comments_content
    else
      "Error fetching comments: " ++ toString comments_status
  else
    "Error fetching issue: " ++ toString issue_status

/-- Claim C3: on the success path (both calls return 200) the result is the
issue body attributed to its author followed by a blank-line-separated list
of `author (ID: id): comment body` entries in API return order; on the
spec's concrete example it is bit-exact
`"Issue Content by alice:\nB\n\nComments:\nbob (ID: 7): C1"`. -/
theorem get_github_issue_content_success (b login : String)
    (cs : List (String × Nat × String)) :
    get_github_issue_content 200 { body := some b, user := some { login := some login } }
        200 (cs.map fun c => { user := some { login := some c.1, id := some c.2.1 },
                               body := some c.2.2 }) =
      "Issue Content by " ++ login ++ ":\n" ++ b ++ "\n\nComments:\n" ++
        String.intercalate "\n\n"
          (cs.map fun c => c.1 ++ " (ID: " ++ toString c.2.1 ++ "): " ++ c.2.2) ∧
    get_github_issue_content 200 { body := some "B", user := some { login := some "alice" } }
        200 [{ user := some { login := some "bob", id := some 7 }, body := some "C1" }] =
      "Issue Content by alice:\nB\n\nComments:\nbob (ID: 7): C1" := by
  constructor
  · simp only [get_github_issue_content, if_pos rfl, List.map_map]
    rfl
  · decide

/-- Claim C4: for every non-200 status of the issue-metadata call the
result is the error string embedding that numeric status, independently of
the comments response (which is therefore never parsed); the comments call
has the same independent policy for its own non-200 statuses when the
metadata call succeeded. -/
theorem get_github_issue_content_error_policy (issue_status comments_status : Nat)
    (issue : IssueJson) (comments : List CommentJson) :
    (issue_status ≠ 200 →
      get_github_issue_content issue_status issue comments_status comments =
        "Error fetching issue: " ++ toString issue_status) ∧
    (comments_status ≠ 200 →
      get_github_issue_content 200 issue comments_status comments =
        "Error fetching comments: " ++ toString comments_status) := by
  constructor
  · intro h
    simp [get_github_issue_content, h]
  · intro h
    simp [get_github_issue_content, h]

/-- Witness for C4: a 404 on the metadata call and a 500 on the comments
call each yield the corresponding error string with the status embedded. -/
theorem get_github_issue_content_error_policy_witness :
    get_github_issue_content 404 {} 200 [] = "Error fetching issue: 404" ∧
    get_github_issue_content 200 {} 500 [] = "Error fetching comments: 500" :=
  ⟨((get_github_issue_content_error_policy 404 200 {} []).1 (by decide)).trans (by decide),
   ((get_github_issue_content_error_policy 200 500 {} []).2 (by decide)).trans (by decide)⟩

/-- Claim C10: when the metadata call succeeds (200) but the comments call
returns non-200, the result is exactly `"Error fetching comments: <status>"`
for every issue payload, so the already-fetched issue body and author are
discarded and no partial thread content appears in the result. -/
theorem comments_error_discards_issue (issue : IssueJson)
    (comments : List CommentJson) (comments_status : Nat)
    (h : comments_status ≠ 200) :
    get_github_issue_content 200 issue comments_status comments =
      "Error fetching comments: " ++ toString comments_status := by
  simp [get_github_issue_content, h]

/-- Witness for C10: with the issue body and author already fetched, a 404
on the comments call yields the bare comments error string. -/
theorem comments_error_discards_issue_witness :
    get_github_issue_content 200
        { body := some "B", user := some { login := some "alice" } } 404 [] =
      "Error fetching comments: 404" :=
  (comments_error_discards_issue
    { body := some "B", user := some { login := some "alice" } } [] 404
    (by decide)).trans (by decide)

/-- Python `str.lower()` (ASCII case folding, which covers the sentinels). -/
def pyLower (s : String) : String :=
  ⟨s.data.map Char.toLower⟩

/-- Python `str.strip()`: remove leading and trailing whitespace. -/
def pyStrip (s : String) : String :=
  ⟨((s.data.dropWhile Char.isWhitespace).reverse.dropWhile Char.isWhitespace).reverse⟩

/-- `get_user_input` from `_gitgen.py`: returns `input(...).strip()`, as a
function of the raw line the human typed. -/
def get_user_input (raw : String) : String :=
  pyStrip raw

/-- The revision prompt built in the `else` branch of the `while` loop:
`f"Accommodate the following feedback: {user_feedback}. Then generate a response to the issue/pr that is technical and helpful to make progress. Be concise."`. -/
def revisionPrompt (user_feedback : String) : String :=
  "Accommodate the following feedback: " ++ user_feedback ++
    ". Then generate a response to the issue/pr that is technical and helpful to make progress. Be concise."

/-- The draft under revision: the most recent aggregated agent output and
how many revision turns produced it. -/
structure DraftState where
  text : String
  revisionCount : Nat
deriving DecidableEq

/-- How the revision loop ended: `accepted` (input `y`, draft copied),
`exited` (input `exit`), or `pending` (the modelled input list ran out
while the real loop would still be awaiting the next line). -/
inductive LoopOutcome where
  | accepted
  | exited
  | pending
deriving DecidableEq

/-- Observable result of running the revision loop: the outcome, the final
draft state, what (if anything) was written to the clipboard by
`pyperclip.copy`, and the revision prompts issued to the agent, in order. -/
structure LoopResult where
  outcome : LoopOutcome
  final : DraftState
  clipboard : Option String
  prompts : List String
deriving DecidableEq

/-- The `while True` revision loop of `gitgen` in `_gitgen.py`.  The agent
session is modelled by a deterministic oracle mapping the list of prompts
issued so far (the session context) to the turn's aggregated reply; `hist`
is that list at loop entry.  Each iteration reads one raw input line,
strips it (`get_user_input`), and compares its `.lower().strip()` form
first against `"exit"` (terminate, no clipboard write), then against `"y"`
(terminate, copy the current draft to the clipboard); any other input
issues one revision turn whose prompt embeds the stripped feedback
verbatim, overwrites the draft with the turn's reply, increments the
revision count, and loops. -/
def revisionLoop (oracle : List String → String) (hist : List String)
    (st : DraftState) : List String → LoopResult
  | [] => { outcome := .pending, final := st, clipboard := none, prompts := [] }
  | raw :: rest =>
    let user_feedback := get_user_input raw
    if pyStrip (pyLower user_feedback) = "exit" then
      { outcome := .exited, final := st, clipboard := none, prompts := [] }
    else if pyStrip (pyLower user_feedback) = "y" then
      { outcome := .accepted, final := st, clipboard := some st.text, prompts := [] }
    else
      let p := revisionPrompt user_feedback
      let r := revisionLoop oracle (hist ++ [p])
        { text := oracle (hist ++ [p]), revisionCount := st.revisionCount + 1 } rest
      { r with prompts := p :: r.prompts }

/-- Claim C5: whenever the trimmed, case-folded input is `"y"`, the loop
terminates in `accepted` and the clipboard receives exactly the current
draft text unchanged (no revision turn is issued). -/
theorem revisionLoop_accepts (oracle : List String → String) (hist : List String)
    (st : DraftState) (raw : String) (rest : List String)
    (h : pyStrip (pyLower (get_user_input raw)) = "y") :
    revisionLoop oracle hist st (raw :: rest) =
      { outcome := .accepted, final := st, clipboard := some st.text, prompts := [] } := by
  simp [revisionLoop, h]

/-- Witness for C5: on input `" Y "` (stripping and folding to `"y"`) after
a draft `"the draft"`, exactly that draft reaches the clipboard. -/
theorem revisionLoop_accepts_witness :
    revisionLoop (fun _ => "unused") [] { text := "the draft", revisionCount := 2 }
        [" Y "] =
      { outcome := .accepted, final := { text := "the draft", revisionCount := 2 },
        clipboard := some "the draft", prompts := [] } :=
  revisionLoop_accepts (fun _ => "unused") [] { text := "the draft", revisionCount := 2 }
    " Y " [] (by decide)

/-- Claim C6: whenever the trimmed, case-folded input is `"exit"`, the loop
terminates in `exited`, issues no revision turn, and never invokes the
clipboard sink. -/
theorem revisionLoop_exits (oracle : List String → String) (hist : List String)
    (st : DraftState) (raw : String) (rest : List String)
    (h : pyStrip (pyLower (get_user_input raw)) = "exit") :
    revisionLoop oracle hist st (raw :: rest) =
      { outcome := .exited, final := st, clipboard := none, prompts := [] } := by
  simp [revisionLoop, h]

/-- Witness for C6: on input `"EXIT "` the loop exits with no clipboard
write and no revision prompt. -/
theorem revisionLoop_exits_witness :
    revisionLoop (fun _ => "unused") [] { text := "the draft", revisionCount := 0 }
        ["EXIT "] =
      { outcome := .exited, final := { text := "the draft", revisionCount := 0 },
        clipboard := none, prompts := [] } :=
  revisionLoop_exits (fun _ => "unused") [] { text := "the draft", revisionCount := 0 }
    "EXIT " [] (by decide)

/-- Claim C7: for every non-sentinel feedback (trimmed, case-folded input
neither `"exit"` nor `"y"`), exactly one new agent turn is issued in this
iteration, its prompt embeds the stripped feedback verbatim, its aggregated
reply becomes the new draft text, the revision count increases by 1, and
the loop returns to awaiting feedback on the remaining inputs. -/
theorem revisionLoop_revises (oracle : List String → String) (hist : List String)
    (st : DraftState) (raw : String) (rest : List String)
    (h1 : pyStrip (pyLower (get_user_input raw)) ≠ "exit")
    (h2 : pyStrip (pyLower (get_user_input raw)) ≠ "y") :
    revisionLoop oracle hist st (raw :: rest) =
      { revisionLoop oracle (hist ++ [revisionPrompt (get_user_input raw)])
          { text := oracle (hist ++ [revisionPrompt (get_user_input raw)]),
            revisionCount := st.revisionCount + 1 } rest
        with prompts := revisionPrompt (get_user_input raw) ::
          (revisionLoop oracle (hist ++ [revisionPrompt (get_user_input raw)])
            { text := oracle (hist ++ [revisionPrompt (get_user_input raw)]),
              revisionCount := st.revisionCount + 1 } rest).prompts } ∧
    revisionPrompt (get_user_input raw) =
      "Accommodate the following feedback: " ++ get_user_input raw ++
        ". Then generate a response to the issue/pr that is technical and helpful to make progress. Be concise." := by
  refine ⟨?_, rfl⟩
  simp [revisionLoop, h1, h2]

/-- Witness for C7: feedback `"make it shorter"` issues exactly one
revision turn embedding that literal string, replaces the draft with the
oracle's reply, and bumps the revision count from 0 to 1. -/
theorem revisionLoop_revises_witness :
    revisionLoop (fun _ => "revised draft") [] { text := "old draft", revisionCount := 0 }
        ["make it shorter"] =
      { revisionLoop (fun _ => "revised draft")
          ([] ++ [revisionPrompt (get_user_input "make it shorter")])
          { text := (fun _ : List String => "revised draft")
              ([] ++ [revisionPrompt (get_user_input "make it shorter")]),
            revisionCount := 0 + 1 } []
        with prompts := revisionPrompt (get_user_input "make it shorter") ::
          (revisionLoop (fun _ => "revised draft")
            ([] ++ [revisionPrompt (get_user_input "make it shorter")])
            { text := (fun _ : List String => "revised draft")
                ([] ++ [revisionPrompt (get_user_input "make it shorter")]),
              revisionCount := 0 + 1 } []).prompts } ∧
    revisionPrompt (get_user_input "make it shorter") =
      "Accommodate the following feedback: " ++ get_user_input "make it shorter" ++
        ". Then generate a response to the issue/pr that is technical and helpful to make progress. Be concise." :=
  revisionLoop_revises (fun _ => "revised draft") []
    { text := "old draft", revisionCount := 0 } "make it shorter" []
    (by decide) (by decide)

/-- Claim C9 (implicit): an empty or whitespace-only input is not rejected
and does not re-prompt; it takes the ordinary revision branch, issuing a
turn whose prompt embeds the empty feedback string. -/
theorem revisionLoop_empty_feedback (oracle : List String → String)
    (hist : List String) (st : DraftState) (raw : String) (rest : List String)
    (h : get_user_input raw = "") :
    revisionLoop oracle hist st (raw :: rest) =
      { revisionLoop oracle (hist ++ [revisionPrompt ""])
          { text := oracle (hist ++ [revisionPrompt ""]),
            revisionCount := st.revisionCount + 1 } rest
        with prompts := revisionPrompt "" ::
          (revisionLoop oracle (hist ++ [revisionPrompt ""])
            { text := oracle (hist ++ [revisionPrompt ""]),
              revisionCount := st.revisionCount + 1 } rest).prompts } ∧
    revisionPrompt "" =
      "Accommodate the following feedback: . Then generate a response to the issue/pr that is technical and helpful to make progress. Be concise." := by
  refine ⟨?_, rfl⟩
  simp only [revisionLoop, h]
  rw [if_neg (by decide), if_neg (by decide)]

/-- Witness for C9: the whitespace-only input `"   "` triggers a revision
turn with the empty feedback embedded in the prompt. -/
theorem revisionLoop_empty_feedback_witness :
    revisionLoop (fun _ => "revised draft") [] { text := "old draft", revisionCount := 0 }
        ["   "] =
      { revisionLoop (fun _ => "revised draft") ([] ++ [revisionPrompt ""])
          { text := (fun _ : List String => "revised draft") ([] ++ [revisionPrompt ""]),
            revisionCount := 0 + 1 } []
        with prompts := revisionPrompt "" ::
          (revisionLoop (fun _ => "revised draft") ([] ++ [revisionPrompt ""])
            { text := (fun _ : List String => "revised draft") ([] ++ [revisionPrompt ""]),
              revisionCount := 0 + 1 } []).prompts } ∧
    revisionPrompt "" =
      "Accommodate the following feedback: . Then generate a response to the issue/pr that is technical and helpful to make progress. Be concise." :=
  revisionLoop_empty_feedback (fun _ => "revised draft") []
    { text := "old draft", revisionCount := 0 } "   " [] (by decide)

/-- The first (fetch) task string built in `gitgen`:
`f"Fetch comments for the {command} #{number} for the {owner}/{repo} repository"`. -/
def fetch_task (owner repo command : String) (number : Nat) : String :=
  "Fetch comments for the " ++ command ++ " #" ++ toString number ++
    " for the " ++ owner ++ "/" ++ repo ++ " repository"

/-- The second (analysis) task string of `gitgen`, verbatim from the
source. -/
def analysis_task : String :=
  "Answer the following questions: 1) What facts are known based on the contents of this issue thread? 2) What is the main issue or problem that needs. 3) What type of a new response from the maintainers would help make progress on this issue? Be concise."

/-- The third (summary) task string of `gitgen`, verbatim from the source. -/
def summary_task : String :=
  "Summarize what is the status of this issue. Be concise."

/-- The fourth (draft) task string of `gitgen`, verbatim from the source. -/
def draft_task : String :=
  "On behalf of the maintainers, generate a response to the issue/pr that is technical and helpful to make progress. Be concise."

/-- Observable trace of one `gitgen` invocation: the prompts of the fixed
pipeline turns in the order they are issued, each turn's aggregated reply,
the draft handed to the revision loop, and the revision loop's result. -/
structure GitgenTrace where
  turnPrompts : List String
  turnReplies : List String
  initialDraft : String
  loop : LoopResult
deriving DecidableEq

/-- The body of `gitgen` from `_gitgen.py` as a pure function of a
deterministic agent oracle (mapping the session's prompt history to the
turn's aggregated reply) and the list of human input lines.  The source
issues four `run` calls in straight line — fetch, analyze, summarize,
draft — with no branching between them, binds the draft turn's output to
`suggested_response`, and then enters the revision `while` loop with that
draft. -/
def gitgen (oracle : List String → String) (owner repo command : String)
    (number : Nat) (inputs : List String) : GitgenTrace :=
  let task := fetch_task owner repo command number
  let r1 := oracle [task]
  let r2 := oracle [task, analysis_task]
  let r3 := oracle [task, analysis_task, summary_task]
  let suggested_response := oracle [task, analysis_task, summary_task, draft_task]
  { turnPrompts := [task, analysis_task, summary_task, draft_task],
    turnReplies := [r1, r2, r3, suggested_response],
    initialDraft := suggested_response,
    loop := revisionLoop oracle [task, analysis_task, summary_task, draft_task]
      { text := suggested_response, revisionCount := 0 } inputs }

/-- Claim C8: for every thread input, `gitgen` issues exactly four agent
turns before the revision loop, in the fixed unconditional order fetch,
analyze, summarize, draft, and the draft turn's reply becomes the initial
draft state with revision count 0 handed to the revision loop. -/
theorem gitgen_pipeline (oracle : List String → String) (owner repo command : String)
    (number : Nat) (inputs : List String) :
    (gitgen oracle owner repo command number inputs).turnPrompts =
      [fetch_task owner repo command number, analysis_task, summary_task, draft_task] ∧
    (gitgen oracle owner repo command number inputs).turnPrompts.length = 4 ∧
    (gitgen oracle owner repo command number inputs).initialDraft =
      oracle [fetch_task owner repo command number, analysis_task, summary_task,
        draft_task] ∧
    (gitgen oracle owner repo command number inputs).loop =
      revisionLoop oracle
        [fetch_task owner repo command number, analysis_task, summary_task, draft_task]
        { text := oracle [fetch_task owner repo command number, analysis_task,
            summary_task, draft_task],
          revisionCount := 0 } inputs :=
  ⟨rfl, rfl, rfl, rfl⟩

end Gitgen
